import Mathlib

/-!
Verification of the planar homography engine and camera configuration of the
parking-assistant GStreamer repository, as a shallow embedding in Lean 4.

The engine proper lives in `pylib/homography.py` (class `Homography2`); that
file is not part of the sources available here, only its callers and test
harnesses are (`debug_matrix.py`, `frontoparallel_identity_test.py`,
`validate_all_tests.py`, `debug_ground_plane.py`).  Definitions for the engine
are therefore modelled from the specification, and are marked as such in
their doc comments.  `pylib/camera_config.py` and `tools/calibrate_cameras.py`
and the debug scripts are embedded directly from their source.

Real numbers stand in for Python floats; all claims about tolerances are
settled by exact real arithmetic, which is stronger than the stated
floating-point tolerance.
-/

namespace Parking

noncomputable section

open Real Matrix

/-- Embedding of `math.radians`: degrees to radians. -/
def radians (x : ℝ) : ℝ := x * Real.pi / 180

abbrev Mat3 := Matrix (Fin 3) (Fin 3) ℝ

abbrev Vec3 := Fin 3 → ℝ

/-- The epsilon used throughout the engine for singularity tests (spec: `1e-6`,
matching the `abs(w) > 1e-6` guards in `debug_ground_plane.py` and
`validate_all_tests.py`). -/
def eps : ℝ := 1 / 1000000

/-- Elementary rotation about the x axis. -/
def rotX (a : ℝ) : Mat3 :=
  !![1, 0, 0;
     0, Real.cos a, -Real.sin a;
     0, Real.sin a, Real.cos a]

/-- Elementary rotation about the y axis. -/
def rotY (a : ℝ) : Mat3 :=
  !![Real.cos a, 0, Real.sin a;
     0, 1, 0;
     -Real.sin a, 0, Real.cos a]

/-- Elementary rotation about the z axis. -/
def rotZ (a : ℝ) : Mat3 :=
  !![Real.cos a, -Real.sin a, 0;
     Real.sin a, Real.cos a, 0;
     0, 0, 1]

/-- Euclidean length of a 3-vector. -/
def norm3 (v : Vec3) : ℝ := Real.sqrt (v 0 ^ 2 + v 1 ^ 2 + v 2 ^ 2)

/-- Cross product of two 3-vectors. -/
def cross3 (a b : Vec3) : Vec3 :=
  ![a 1 * b 2 - a 2 * b 1, a 2 * b 0 - a 0 * b 2, a 0 * b 1 - a 1 * b 0]

/-- Scale a 3-vector to unit length. -/
def normalize3 (v : Vec3) : Vec3 := fun i => v i / norm3 v

/-- Modelled from the spec: the mutable state of `Homography2`
(`pylib/homography.py`, absent from the available sources), as set by the
test harnesses: image size, focal lengths in pixels, camera position in mm,
orientation in degrees, plane normal and signed distance, output window
scale/origin in mm, and the vertical-flip flag for the source texture. -/
structure Homography2 where
  cam_width : ℝ
  cam_height : ℝ
  focal_x : ℝ
  focal_y : ℝ
  camera_x : ℝ
  camera_y : ℝ
  camera_z : ℝ
  roll : ℝ
  pitch : ℝ
  yaw : ℝ
  plane_normal : Vec3
  plane_distance : ℝ
  out_scale_x_mm_per_uv : ℝ
  out_scale_y_mm_per_uv : ℝ
  out_origin_x_mm : ℝ
  out_origin_y_mm : ℝ
  y_up_src : Bool

namespace Homography2

/-- Modelled from the spec (§4.1): the intrinsic matrix `K`, with the
principal point at the image center. -/
def K (h : Homography2) : Mat3 :=
  !![h.focal_x, 0, h.cam_width / 2;
     0, h.focal_y, h.cam_height / 2;
     0, 0, 1]

/-- Modelled from the spec (§4.2): the rotation matrix `R` as a product of
elementary rotations, angles in degrees, in a fixed order.  The spec leaves
the exact order as a deliberate, documented ambiguity (§9); every claim
settled here is independent of the order chosen. -/
def R (h : Homography2) : Mat3 :=
  rotZ (radians h.yaw) * rotY (radians h.pitch) * rotX (radians h.roll)

/-- The camera position as a column vector `C`. -/
def Cvec (h : Homography2) : Vec3 := ![h.camera_x, h.camera_y, h.camera_z]

/-- Modelled from the spec (§4.2): the extrinsic translation `t = -R·C`. -/
def t (h : Homography2) : Vec3 := -(h.R.mulVec h.Cvec)

/-- Modelled from the spec (§4.3): the reference axis for the plane basis,
a fixed world axis with a fallback when the normal is (nearly) parallel to
it. -/
def refAxis (n : Vec3) : Vec3 :=
  if 1 - eps < |n 1| then ![0, 0, 1] else ![0, 1, 0]

/-- Modelled from the spec (§4.3): the first in-plane tangent vector. -/
def basisU (n : Vec3) : Vec3 := normalize3 (cross3 (refAxis n) n)

/-- Modelled from the spec (§4.3): the second in-plane tangent vector. -/
def basisV (n : Vec3) : Vec3 := normalize3 (cross3 (basisU n) n)

/-- Modelled from the spec (§4.3, §3): the deterministic plane basis `B`
with columns `u`, `v`, `p0 = d·n`.  The reference axis and cross product
order are fixed deterministically (the spec gives its Gram–Schmidt recipe
only as an example) so that the fronto-parallel identity guarantee of
§4.5/§8 holds, which pins the basis down for the configurations exercised
by the repository tests. -/
def planeBasis (n : Vec3) (d : ℝ) : Mat3 :=
  Matrix.of ![![basisU n 0, basisV n 0, d * n 0],
              ![basisU n 1, basisV n 1, d * n 1],
              ![basisU n 2, basisV n 2, d * n 2]]

/-- Modelled from the spec (§4.5): the plane-induced homography
`H = K·(R − (t·nᵀ)/d)·B`. -/
def H (h : Homography2) : Mat3 :=
  h.K * (h.R - (1 / h.plane_distance) • Matrix.vecMulVec h.t h.plane_normal) *
    planeBasis h.plane_normal h.plane_distance

/-- Modelled from the spec (§4.4): the affine output-window matrix `A`
mapping output-UV homogeneous coordinates to plane-local mm coordinates. -/
def A (h : Homography2) : Mat3 :=
  !![h.out_scale_x_mm_per_uv, 0, h.out_origin_x_mm;
     0, h.out_scale_y_mm_per_uv, h.out_origin_y_mm;
     0, 0, 1]

/-- Modelled from the spec (§4.4): the source pixel-to-UV conversion matrix
`N⁻¹`, flipping the vertical axis (`v_uv = 1 - y_px/height`) when `y_up`
is true and using `v_uv = y_px/height` otherwise. -/
def pixelToUv (h : Homography2) : Mat3 :=
  if h.y_up_src then
    !![1 / h.cam_width, 0, 0;
       0, -(1 / h.cam_height), 1;
       0, 0, 1]
  else
    !![1 / h.cam_width, 0, 0;
       0, 1 / h.cam_height, 0;
       0, 0, 1]

/-- Modelled from the spec (§4.5): the normalized matrix `M = N⁻¹·H·A`
handed to the shader. -/
def normalized (h : Homography2) : Mat3 := h.pixelToUv * h.H * h.A

end Homography2

/-- Modelled from the spec (§4.5): `map_point` applies a 3×3 matrix to the
homogeneous point `(u, v, 1)`, performs the perspective divide, and reports
`valid = false` when `|w| < ε` instead of dividing.  The same guard appears
verbatim in the repository harnesses (`debug_ground_plane.py` lines 66–74,
`validate_all_tests.py` lines 43–55). -/
def mapPoint (M : Mat3) (u v : ℝ) : (ℝ × ℝ) × Bool :=
  let w := M 2 0 * u + M 2 1 * v + M 2 2
  if |w| < eps then ((0, 0), false)
  else (((M 0 0 * u + M 0 1 * v + M 0 2) / w,
         (M 1 0 * u + M 1 1 * v + M 1 2) / w), true)

/-- Embedding of the matrix `N_src_inv` built in `debug_matrix.py` lines 77–81,
as a function of the image width and height it is built from:
`[[1/W, 0, 0], [0, -1/H, H], [0, 0, 1]]`. -/
def N_src_inv (W Himg : ℝ) : Mat3 :=
  !![1 / W, 0, 0;
     0, -(1 / Himg), Himg;
     0, 0, 1]

/-- Embedding of the state of `CameraConfig` (`pylib/camera_config.py`):
constructor parameters plus the calibration fields set up in `__init__`
lines 94–100 (`_meters_per_pixel`, `_calibrated_left_homography`,
`_calibrated_right_homography`, `_use_calibrated_homography`). -/
structure CameraConfig where
  h_fov : ℝ
  v_fov : ℝ
  focal_length_mm : ℝ
  resolution : ℤ × ℤ
  camera_height : ℝ
  tilt_angle : ℝ
  pan_angle : ℝ
  camera_spacing : ℝ
  distance_to_wall : ℝ
  reference_object_size : ℝ
  enable_perspective_correction : Bool
  meters_per_pixel_cal : Option ℝ
  calibrated_left_homography : Option (List ℝ)
  calibrated_right_homography : Option (List ℝ)
  use_calibrated_homography : Bool

namespace CameraConfig

/-- Embedding of `CameraConfig.__init__` (lines 38–103) with all parameters
supplied explicitly (so the environment-variable fallbacks are not taken) and
no calibration file present (`_load_calibration_file` returns without effect
when the file does not exist, line 159).  The constructor body contains no
raise statement: every parameter is stored as given, so the embedding always
returns `Except.ok`. -/
def init (h_fov v_fov focal_length_mm : ℝ) (resolution : ℤ × ℤ)
    (camera_height tilt_angle pan_angle camera_spacing distance_to_wall
     reference_object_size : ℝ) (enable_perspective_correction : Bool) :
    Except String CameraConfig :=
  Except.ok
    { h_fov := h_fov
      v_fov := v_fov
      focal_length_mm := focal_length_mm
      resolution := resolution
      camera_height := camera_height
      tilt_angle := tilt_angle
      pan_angle := pan_angle
      camera_spacing := camera_spacing
      distance_to_wall := distance_to_wall
      reference_object_size := reference_object_size
      enable_perspective_correction := enable_perspective_correction
      meters_per_pixel_cal := none
      calibrated_left_homography := none
      calibrated_right_homography := none
      use_calibrated_homography := false }

/-- Embedding of `compute_focal_length_pixels` (lines 105–120):
`fx = (width/2)/tan(radians(h_fov/2))`, `fy = (height/2)/tan(radians(v_fov/2))`. -/
def compute_focal_length_pixels (c : CameraConfig) : ℝ × ℝ :=
  let width : ℝ := (c.resolution.1 : ℝ)
  let height : ℝ := (c.resolution.2 : ℝ)
  ((width / 2) / Real.tan (radians (c.h_fov / 2)),
   (height / 2) / Real.tan (radians (c.v_fov / 2)))

/-- Embedding of `compute_principal_point` (lines 122–133): the image center. -/
def compute_principal_point (c : CameraConfig) : ℝ × ℝ :=
  ((c.resolution.1 : ℝ) / 2, (c.resolution.2 : ℝ) / 2)

/-- Embedding of `compute_homography_matrix` (lines 225–288).  A `ValueError`
is modelled as `Except.error`; the calibrated branch is taken only when the
flag is set and the matching matrix is present, exactly as in the source. -/
def compute_homography_matrix (c : CameraConfig) (camera_side : String) :
    Except String (List ℝ) :=
  if camera_side ≠ "left" ∧ camera_side ≠ "right" then
    Except.error "camera_side must be left or right"
  else if c.use_calibrated_homography ∧ camera_side = "left" ∧
      c.calibrated_left_homography.isSome then
    Except.ok (c.calibrated_left_homography.getD [])
  else if c.use_calibrated_homography ∧ camera_side = "right" ∧
      c.calibrated_right_homography.isSome then
    Except.ok (c.calibrated_right_homography.getD [])
  else
    let pan_sign : ℝ := if camera_side = "left" then -1 else 1
    let theta := radians (pan_sign * c.pan_angle)
    let h31 := -Real.tan theta
    Except.ok [1, 0, 0, 0, 1, 0, h31, 0, 1]

/-- Embedding of `calibrate_from_reference` (lines 302–317):
`_meters_per_pixel = reference_meters / reference_pixels`. -/
def calibrate_from_reference (c : CameraConfig)
    (reference_pixels reference_meters : ℝ) : CameraConfig :=
  { c with meters_per_pixel_cal := some (reference_meters / reference_pixels) }

/-- The `RuntimeError` message raised by the uncalibrated conversions. -/
def not_calibrated_msg : String :=
  "Not calibrated. Call calibrate_from_reference first with a known reference object."

/-- Embedding of `pixels_to_meters` (lines 329–349): raises `RuntimeError`
when uncalibrated, else multiplies by the stored scale. -/
def pixels_to_meters (c : CameraConfig) (pixel_distance : ℝ) : Except String ℝ :=
  match c.meters_per_pixel_cal with
  | none => Except.error not_calibrated_msg
  | some k => Except.ok (pixel_distance * k)

/-- Embedding of `meters_to_pixels` (lines 351–371): raises `RuntimeError`
when uncalibrated, else divides by the stored scale. -/
def meters_to_pixels (c : CameraConfig) (meter_distance : ℝ) : Except String ℝ :=
  match c.meters_per_pixel_cal with
  | none => Except.error not_calibrated_msg
  | some k => Except.ok (meter_distance / k)

end CameraConfig

/-- The default `CameraConfig` (all constructor defaults from
`pylib/camera_config.py` lines 74–92, no calibration file). -/
def defaultConfig : CameraConfig :=
  { h_fov := 75
    v_fov := 59
    focal_length_mm := 2.95
    resolution := (1280, 720)
    camera_height := 0.9
    tilt_angle := 0
    pan_angle := 37.5
    camera_spacing := 0.1
    distance_to_wall := 4
    reference_object_size := 0.094
    enable_perspective_correction := true
    meters_per_pixel_cal := none
    calibrated_left_homography := none
    calibrated_right_homography := none
    use_calibrated_homography := false }

/-- The identity configuration of the fronto-parallel sanity check
(`frontoparallel_identity_test.py` lines 58–85, `validate_all_tests.py`
lines 65–83): camera at the origin with zero rotation, plane normal
`(0,0,1)` at distance `d`, output window scaled to match the field of view
at that distance (`out_scale = d/f · size`) and centered
(`origin = -out_scale/2`), GL vertical convention. -/
def idCfg (W h fx fy d : ℝ) : Homography2 :=
  { cam_width := W
    cam_height := h
    focal_x := fx
    focal_y := fy
    camera_x := 0
    camera_y := 0
    camera_z := 0
    roll := 0
    pitch := 0
    yaw := 0
    plane_normal := ![0, 0, 1]
    plane_distance := d
    out_scale_x_mm_per_uv := d * W / fx
    out_scale_y_mm_per_uv := d * h / fy
    out_origin_x_mm := -(d * W / fx) / 2
    out_origin_y_mm := -(d * h / fy) / 2
    y_up_src := true }

end

open Real Matrix

/-! ## Theorems for claims C4, C5, C8, C9, C10 -/

/-- C4: the pixel-to-UV matrix built in `debug_matrix.py` lines 77–81 with
`width = height = 720` and `y_up` true sends the pixel `(0, 0)` to a point
with vertical component `720` — the matrix entry is `H_img` where the spec
(`v_uv = 1 − y_px/height`, hence `1` at this input) requires `1.0`, so the
result lies far outside `[0,1]`. -/
theorem c4_code_at_failing_input :
    ((N_src_inv 720 720).mulVec ![(0 : ℝ), 0, 1]) 1 = 720 ∧ ¬((720 : ℝ) ≤ 1) ∧
      (1 - (0 : ℝ) / 720 : ℝ) = 1 := by
  refine ⟨?_, by norm_num, by norm_num⟩
  simp [N_src_inv, Matrix.mulVec, Matrix.dotProduct, Fin.sum_univ_three]

/-- C5: for positive image dimensions and fields of view strictly between 0°
and 180°, `compute_focal_length_pixels` returns exactly
`((width/2)/tan(h_fov/2), (height/2)/tan(v_fov/2))`, both strictly positive,
and `compute_principal_point` returns the image center. -/
theorem c5_focal_length_pixels (c : CameraConfig)
    (hw : 0 < c.resolution.1) (hh : 0 < c.resolution.2)
    (hfov0 : 0 < c.h_fov) (hfov1 : c.h_fov < 180)
    (vfov0 : 0 < c.v_fov) (vfov1 : c.v_fov < 180) :
    c.compute_focal_length_pixels =
      (((c.resolution.1 : ℝ) / 2) / Real.tan (radians (c.h_fov / 2)),
       ((c.resolution.2 : ℝ) / 2) / Real.tan (radians (c.v_fov / 2))) ∧
    0 < c.compute_focal_length_pixels.1 ∧
    0 < c.compute_focal_length_pixels.2 ∧
    c.compute_principal_point = ((c.resolution.1 : ℝ) / 2, (c.resolution.2 : ℝ) / 2) := by
  have hpi := Real.pi_pos
  have tanpos : ∀ f : ℝ, 0 < f → f < 180 → 0 < Real.tan (radians (f / 2)) := by
    intro f h0 h1
    apply Real.tan_pos_of_pos_of_lt_pi_div_two
    · unfold radians; positivity
    · unfold radians; nlinarith
  refine ⟨rfl, ?_, ?_, rfl⟩
  · have : (0 : ℝ) < (c.resolution.1 : ℝ) := by exact_mod_cast hw
    exact div_pos (by linarith) (tanpos _ hfov0 hfov1)
  · have : (0 : ℝ) < (c.resolution.2 : ℝ) := by exact_mod_cast hh
    exact div_pos (by linarith) (tanpos _ vfov0 vfov1)

/-- Witness for C5 at the hardware defaults of `pylib/camera_config.py`:
resolution 1280×720, FOV 75°×59°. -/
theorem c5_focal_length_pixels_witness :
    defaultConfig.compute_focal_length_pixels =
      (((1280 : ℝ) / 2) / Real.tan (radians ((75 : ℝ) / 2)),
       ((720 : ℝ) / 2) / Real.tan (radians ((59 : ℝ) / 2))) ∧
    0 < defaultConfig.compute_focal_length_pixels.1 ∧
    0 < defaultConfig.compute_focal_length_pixels.2 ∧
    defaultConfig.compute_principal_point = ((1280 : ℝ) / 2, (720 : ℝ) / 2) := by
  have h := c5_focal_length_pixels defaultConfig (by norm_num [defaultConfig])
    (by norm_num [defaultConfig]) (by norm_num [defaultConfig])
    (by norm_num [defaultConfig]) (by norm_num [defaultConfig])
    (by norm_num [defaultConfig])
  simpa [defaultConfig] using h

/-- C8 counterexample: constructing a `CameraConfig` with a zero image
dimension and a negative focal length does not fail — `__init__` contains no
validation and stores the values as given. -/
theorem c8_counterexample :
    CameraConfig.init 75 59 (-1) (0, 0) 0.9 0 37.5 0.1 4 0.094 true =
      Except.ok
        { h_fov := 75
          v_fov := 59
          focal_length_mm := -1
          resolution := (0, 0)
          camera_height := 0.9
          tilt_angle := 0
          pan_angle := 37.5
          camera_spacing := 0.1
          distance_to_wall := 4
          reference_object_size := 0.094
          enable_perspective_correction := true
          meters_per_pixel_cal := none
          calibrated_left_homography := none
          calibrated_right_homography := none
          use_calibrated_homography := false } := rfl

/-- C8 amended: `CameraConfig.__init__` performs no parameter validation;
construction with any values — including non-positive dimensions or focal
lengths — succeeds and stores the values as given. -/
theorem c8_no_validation_on_init (h_fov v_fov focal : ℝ) (res : ℤ × ℤ)
    (ch tilt pan spacing dist ref : ℝ) (persp : Bool) :
    ∃ c : CameraConfig,
      CameraConfig.init h_fov v_fov focal res ch tilt pan spacing dist ref persp =
        Except.ok c ∧ c.resolution = res ∧ c.focal_length_mm = focal ∧
        c.h_fov = h_fov ∧ c.v_fov = v_fov :=
  ⟨_, rfl, rfl, rfl, rfl, rfl⟩

/-- C9: with no calibrated matrices in use, `compute_homography_matrix`
returns, for each side, the 9-element row-major identity list except for
element 6 (`h31`), with `h31_left = tan(radians(pan_angle))`,
`h31_right = -tan(radians(pan_angle))` (so `h31_left = -h31_right`), and any
other `camera_side` produces the `ValueError`. -/
theorem c9_homography_matrix (c : CameraConfig)
    (hcal : c.use_calibrated_homography = false) :
    c.compute_homography_matrix "left" =
      Except.ok [1, 0, 0, 0, 1, 0, Real.tan (radians c.pan_angle), 0, 1] ∧
    c.compute_homography_matrix "right" =
      Except.ok [1, 0, 0, 0, 1, 0, -Real.tan (radians c.pan_angle), 0, 1] ∧
    Real.tan (radians c.pan_angle) = -(-Real.tan (radians c.pan_angle)) ∧
    ∀ s : String, s ≠ "left" → s ≠ "right" →
      c.compute_homography_matrix s = Except.error "camera_side must be left or right" := by
  have hneg : ∀ y : ℝ, radians (-y) = -(radians y) := by
    intro y; unfold radians; ring
  refine ⟨?_, ?_, by ring, ?_⟩
  · simp [CameraConfig.compute_homography_matrix, hcal, hneg, Real.tan_neg]
  · simp [CameraConfig.compute_homography_matrix, hcal]
  · intro s hl hr
    simp [CameraConfig.compute_homography_matrix, hl, hr]

/-- Witness for C9 at the default configuration (pan angle 37.5°, no
calibration loaded). -/
theorem c9_homography_matrix_witness :
    defaultConfig.compute_homography_matrix "left" =
      Except.ok [1, 0, 0, 0, 1, 0, Real.tan (radians 37.5), 0, 1] ∧
    defaultConfig.compute_homography_matrix "right" =
      Except.ok [1, 0, 0, 0, 1, 0, -Real.tan (radians 37.5), 0, 1] ∧
    defaultConfig.compute_homography_matrix "up" =
      Except.error "camera_side must be left or right" := by
  have h := c9_homography_matrix defaultConfig rfl
  exact ⟨h.1, h.2.1, h.2.2.2 "up" (by decide) (by decide)⟩

/-- C10: before calibration both conversions raise `RuntimeError`; after
`calibrate_from_reference(p, m)` with nonzero `p` and `m`, converting any
pixel distance `x` to meters and back returns exactly `x`. -/
theorem c10_calibration_roundtrip (c : CameraConfig) (x p m : ℝ)
    (hnc : c.meters_per_pixel_cal = none) (hp : p ≠ 0) (hm : m ≠ 0) :
    c.pixels_to_meters x = Except.error CameraConfig.not_calibrated_msg ∧
    c.meters_to_pixels x = Except.error CameraConfig.not_calibrated_msg ∧
    (c.calibrate_from_reference p m).pixels_to_meters x = Except.ok (x * (m / p)) ∧
    (c.calibrate_from_reference p m).meters_to_pixels (x * (m / p)) = Except.ok x := by
  have hmp : m / p ≠ 0 := div_ne_zero hm hp
  refine ⟨?_, ?_, rfl, ?_⟩
  · simp [CameraConfig.pixels_to_meters, hnc]
  · simp [CameraConfig.meters_to_pixels, hnc]
  · simp [CameraConfig.meters_to_pixels, CameraConfig.calibrate_from_reference,
      mul_div_assoc, div_self hmp]

/-- Witness for C10: the default (uncalibrated) configuration, reference
object 2 pixels = 1 meter, round-tripping a 7-pixel distance. -/
theorem c10_calibration_roundtrip_witness :
    defaultConfig.pixels_to_meters 7 = Except.error CameraConfig.not_calibrated_msg ∧
    defaultConfig.meters_to_pixels 7 = Except.error CameraConfig.not_calibrated_msg ∧
    (defaultConfig.calibrate_from_reference 2 1).pixels_to_meters 7 =
      Except.ok (7 * ((1 : ℝ) / 2)) ∧
    (defaultConfig.calibrate_from_reference 2 1).meters_to_pixels (7 * ((1 : ℝ) / 2)) =
      Except.ok 7 :=
  c10_calibration_roundtrip defaultConfig 7 2 1 rfl (by norm_num) (by norm_num)

/-! ## Supporting lemmas for the engine claims -/

lemma norm3_idcfg_normal : norm3 ![(0 : ℝ), 0, 1] = 1 := by
  norm_num [norm3]

lemma eps_le_abs_idcfg_distance : eps ≤ |(4000 : ℝ)| := by
  norm_num [eps]

/-! ## Theorems for claims C1, C2, C7 -/

/-- C1: for every valid configuration (unit plane normal, plane distance of
magnitude at least ε) the engine homography is
`H = K · (R − (t·nᵀ)/d) · B` with extrinsic translation `t = −R·C`. -/
theorem c1_homography_formula (h : Homography2)
    (_hn : norm3 h.plane_normal = 1) (_hd : eps ≤ |h.plane_distance|) :
    h.H =
      h.K *
        (h.R - (1 / h.plane_distance) •
          Matrix.vecMulVec (-(h.R.mulVec ![h.camera_x, h.camera_y, h.camera_z]))
            h.plane_normal) *
        Homography2.planeBasis h.plane_normal h.plane_distance := rfl

/-- Witness for C1 at the fronto-parallel test configuration. -/
theorem c1_homography_formula_witness :
    norm3 (idCfg 720 720 500 500 4000).plane_normal = 1 ∧
    eps ≤ |(idCfg 720 720 500 500 4000).plane_distance| ∧
    (idCfg 720 720 500 500 4000).H =
      (idCfg 720 720 500 500 4000).K *
        ((idCfg 720 720 500 500 4000).R - (1 / (idCfg 720 720 500 500 4000).plane_distance) •
          Matrix.vecMulVec
            (-((idCfg 720 720 500 500 4000).R.mulVec ![0, 0, 0]))
            (idCfg 720 720 500 500 4000).plane_normal) *
        Homography2.planeBasis (idCfg 720 720 500 500 4000).plane_normal
          (idCfg 720 720 500 500 4000).plane_distance :=
  ⟨norm3_idcfg_normal, eps_le_abs_idcfg_distance,
    c1_homography_formula (idCfg 720 720 500 500 4000) norm3_idcfg_normal
      eps_le_abs_idcfg_distance⟩

/-- C2: for every valid configuration the shader matrix is `M = N⁻¹·H·A`,
where `A` is the affine output-window matrix sending the homogeneous output
UV point `(u, v, 1)` to `(scale_x·u + origin_x, scale_y·v + origin_y, 1)`
and `N⁻¹` is the source pixel-to-UV conversion matrix. -/
theorem c2_normalized_formula (h : Homography2)
    (_hn : norm3 h.plane_normal = 1) (_hd : eps ≤ |h.plane_distance|) :
    h.normalized = h.pixelToUv * h.H * h.A ∧
    ∀ u v : ℝ,
      h.A.mulVec ![u, v, 1] =
        ![h.out_scale_x_mm_per_uv * u + h.out_origin_x_mm,
          h.out_scale_y_mm_per_uv * v + h.out_origin_y_mm, 1] := by
  refine ⟨rfl, ?_⟩
  intro u v
  funext i
  fin_cases i <;>
    simp [Homography2.A, Matrix.mulVec, Matrix.dotProduct, Fin.sum_univ_three]

/-- Witness for C2 at the fronto-parallel test configuration. -/
theorem c2_normalized_formula_witness :
    (idCfg 720 720 500 500 4000).normalized =
      (idCfg 720 720 500 500 4000).pixelToUv * (idCfg 720 720 500 500 4000).H *
        (idCfg 720 720 500 500 4000).A ∧
    (idCfg 720 720 500 500 4000).A.mulVec ![0.5, 0.5, 1] =
      ![(idCfg 720 720 500 500 4000).out_scale_x_mm_per_uv * 0.5 +
          (idCfg 720 720 500 500 4000).out_origin_x_mm,
        (idCfg 720 720 500 500 4000).out_scale_y_mm_per_uv * 0.5 +
          (idCfg 720 720 500 500 4000).out_origin_y_mm, 1] := by
  have h := c2_normalized_formula (idCfg 720 720 500 500 4000) norm3_idcfg_normal
    eps_le_abs_idcfg_distance
  exact ⟨h.1, h.2 0.5 0.5⟩

/-- C7: `map_point` applies the matrix to the homogeneous point `(u, v, 1)`;
whenever the homogeneous coordinate `w` satisfies `|w| < ε` it reports
`valid = false` (returning finite placeholder coordinates, no exception and
no infinity), and otherwise it returns the perspective-divided point with
`valid = true`. -/
theorem c7_map_point (M : Mat3) (u v : ℝ) :
    (|M 2 0 * u + M 2 1 * v + M 2 2| < eps → mapPoint M u v = ((0, 0), false)) ∧
    (eps ≤ |M 2 0 * u + M 2 1 * v + M 2 2| →
      mapPoint M u v =
        (((M 0 0 * u + M 0 1 * v + M 0 2) / (M 2 0 * u + M 2 1 * v + M 2 2),
          (M 1 0 * u + M 1 1 * v + M 1 2) / (M 2 0 * u + M 2 1 * v + M 2 2)),
         true)) := by
  constructor
  · intro hw
    unfold mapPoint
    rw [if_pos hw]
  · intro hw
    unfold mapPoint
    rw [if_neg (not_lt.mpr hw)]

/-- Witness for C7: the identity matrix at the point `(1/4, 3/4)` has
`w = 1`, which is no smaller than ε, so the divide happens and the point is
valid. -/
theorem c7_map_point_witness :
    eps ≤ |(1 : Mat3) 2 0 * (1 / 4) + (1 : Mat3) 2 1 * (3 / 4) + (1 : Mat3) 2 2| ∧
    mapPoint (1 : Mat3) (1 / 4) (3 / 4) =
      ((((1 : Mat3) 0 0 * (1 / 4) + (1 : Mat3) 0 1 * (3 / 4) + (1 : Mat3) 0 2) /
          ((1 : Mat3) 2 0 * (1 / 4) + (1 : Mat3) 2 1 * (3 / 4) + (1 : Mat3) 2 2),
        ((1 : Mat3) 1 0 * (1 / 4) + (1 : Mat3) 1 1 * (3 / 4) + (1 : Mat3) 1 2) /
          ((1 : Mat3) 2 0 * (1 / 4) + (1 : Mat3) 2 1 * (3 / 4) + (1 : Mat3) 2 2)),
       true) := by
  have hw : eps ≤ |(1 : Mat3) 2 0 * (1 / 4) + (1 : Mat3) 2 1 * (3 / 4) + (1 : Mat3) 2 2| := by
    have e20 : (1 : Mat3) 2 0 = 0 := by simp [Matrix.one_apply]
    have e21 : (1 : Mat3) 2 1 = 0 := by simp [Matrix.one_apply]
    have e22 : (1 : Mat3) 2 2 = 1 := Matrix.one_apply_eq 2
    rw [e20, e21, e22]
    norm_num [eps]
  exact ⟨hw, (c7_map_point (1 : Mat3) (1 / 4) (3 / 4)).2 hw⟩

/-! ## Orthonormality of the rotation (claim C6) -/

lemma rotX_mul_transpose (a : ℝ) : rotX a * (rotX a)ᵀ = 1 := by
  have ht : (rotX a)ᵀ =
      !![1, 0, 0; 0, Real.cos a, Real.sin a; 0, -Real.sin a, Real.cos a] := by
    ext i j; fin_cases i <;> fin_cases j <;> rfl
  rw [ht, rotX, Matrix.mul_fin_three, Matrix.one_fin_three]
  congr 1
  ring_nf
  simp [Real.cos_sq_add_sin_sq, Real.sin_sq_add_cos_sq]

lemma rotY_mul_transpose (a : ℝ) : rotY a * (rotY a)ᵀ = 1 := by
  have ht : (rotY a)ᵀ =
      !![Real.cos a, 0, -Real.sin a; 0, 1, 0; Real.sin a, 0, Real.cos a] := by
    ext i j; fin_cases i <;> fin_cases j <;> rfl
  rw [ht, rotY, Matrix.mul_fin_three, Matrix.one_fin_three]
  congr 1
  ring_nf
  simp [Real.cos_sq_add_sin_sq, Real.sin_sq_add_cos_sq]

lemma rotZ_mul_transpose (a : ℝ) : rotZ a * (rotZ a)ᵀ = 1 := by
  have ht : (rotZ a)ᵀ =
      !![Real.cos a, Real.sin a, 0; -Real.sin a, Real.cos a, 0; 0, 0, 1] := by
    ext i j; fin_cases i <;> fin_cases j <;> rfl
  rw [ht, rotZ, Matrix.mul_fin_three, Matrix.one_fin_three]
  congr 1
  ring_nf
  simp [Real.cos_sq_add_sin_sq, Real.sin_sq_add_cos_sq]

lemma det_rotX (a : ℝ) : (rotX a).det = 1 := by
  rw [rotX, Matrix.det_fin_three]
  simp
  nlinarith [Real.sin_sq_add_cos_sq a]

lemma det_rotY (a : ℝ) : (rotY a).det = 1 := by
  rw [rotY, Matrix.det_fin_three]
  simp
  nlinarith [Real.sin_sq_add_cos_sq a]

lemma det_rotZ (a : ℝ) : (rotZ a).det = 1 := by
  rw [rotZ, Matrix.det_fin_three]
  simp
  nlinarith [Real.sin_sq_add_cos_sq a]

/-- C6: for any roll/pitch/yaw in `[-180°, 180°]`, the engine rotation
matrix satisfies `R·Rᵀ = I` and `det R = 1` exactly (hence within any
floating tolerance such as `1e-5`). -/
theorem c6_rotation_orthonormal (h : Homography2)
    (_hr1 : -180 ≤ h.roll) (_hr2 : h.roll ≤ 180)
    (_hp1 : -180 ≤ h.pitch) (_hp2 : h.pitch ≤ 180)
    (_hy1 : -180 ≤ h.yaw) (_hy2 : h.yaw ≤ 180) :
    h.R * h.Rᵀ = 1 ∧ h.R.det = 1 := by
  have cancel : ∀ M X : Mat3, M * Mᵀ = 1 → M * (Mᵀ * X) = X := by
    intro M X hM
    rw [← Matrix.mul_assoc, hM, Matrix.one_mul]
  constructor
  · unfold Homography2.R
    rw [Matrix.transpose_mul, Matrix.transpose_mul]
    rw [Matrix.mul_assoc, Matrix.mul_assoc]
    rw [cancel _ _ (rotX_mul_transpose (radians h.roll))]
    rw [cancel _ _ (rotY_mul_transpose (radians h.pitch))]
    exact rotZ_mul_transpose (radians h.yaw)
  · unfold Homography2.R
    rw [Matrix.det_mul, Matrix.det_mul, det_rotX, det_rotY, det_rotZ]
    norm_num

/-! ## The fronto-parallel identity configuration (claim C3) -/

lemma radians_zero : radians 0 = 0 := by unfold radians; ring

lemma rotX_zero : rotX 0 = 1 := by
  rw [Matrix.one_fin_three]; simp [rotX]

lemma rotY_zero : rotY 0 = 1 := by
  rw [Matrix.one_fin_three]; simp [rotY]

lemma rotZ_zero : rotZ 0 = 1 := by
  rw [Matrix.one_fin_three]; simp [rotZ]

lemma R_idCfg (W h fx fy d : ℝ) : (idCfg W h fx fy d).R = 1 := by
  show rotZ (radians 0) * rotY (radians 0) * rotX (radians 0) = 1
  rw [radians_zero, rotX_zero, rotY_zero, rotZ_zero, Matrix.one_mul, Matrix.one_mul]

lemma t_idCfg (W h fx fy d : ℝ) : (idCfg W h fx fy d).t = 0 := by
  unfold Homography2.t
  rw [R_idCfg, Matrix.one_mulVec]
  funext i
  fin_cases i <;> simp [Homography2.Cvec, idCfg]

lemma refAxis_e3 : Homography2.refAxis ![(0 : ℝ), 0, 1] = ![0, 1, 0] := by
  unfold Homography2.refAxis
  norm_num [eps]

lemma basisU_e3 : Homography2.basisU ![(0 : ℝ), 0, 1] = ![1, 0, 0] := by
  unfold Homography2.basisU
  rw [refAxis_e3]
  have hc : cross3 ![(0 : ℝ), 1, 0] ![0, 0, 1] = ![1, 0, 0] := by
    funext i; fin_cases i <;> norm_num [cross3]
  rw [hc]
  funext i
  fin_cases i <;> norm_num [normalize3, norm3]

lemma basisV_e3 : Homography2.basisV ![(0 : ℝ), 0, 1] = ![0, -1, 0] := by
  unfold Homography2.basisV
  rw [basisU_e3]
  have hc : cross3 ![(1 : ℝ), 0, 0] ![0, 0, 1] = ![0, -1, 0] := by
    funext i; fin_cases i <;> norm_num [cross3]
  rw [hc]
  funext i
  fin_cases i <;> norm_num [normalize3, norm3]

lemma planeBasis_e3 (d : ℝ) :
    Homography2.planeBasis ![(0 : ℝ), 0, 1] d = !![1, 0, 0; 0, -1, 0; 0, 0, d] := by
  unfold Homography2.planeBasis
  rw [basisU_e3, basisV_e3]
  ext i j
  fin_cases i <;> fin_cases j <;> norm_num [Matrix.vecHead, Matrix.vecTail]

lemma H_idCfg (W h fx fy d : ℝ) :
    (idCfg W h fx fy d).H = !![fx, 0, W / 2 * d; 0, -fy, h / 2 * d; 0, 0, d] := by
  unfold Homography2.H
  rw [R_idCfg, t_idCfg]
  have hz : Matrix.vecMulVec (0 : Vec3) (idCfg W h fx fy d).plane_normal = 0 := by
    ext i j
    simp [Matrix.vecMulVec_apply]
  rw [hz, smul_zero, sub_zero, Matrix.mul_one]
  have hB : Homography2.planeBasis (idCfg W h fx fy d).plane_normal
      (idCfg W h fx fy d).plane_distance = !![1, 0, 0; 0, -1, 0; 0, 0, d] :=
    planeBasis_e3 d
  rw [hB]
  show (!![fx, 0, W / 2; 0, fy, h / 2; 0, 0, 1] : Mat3) * !![1, 0, 0; 0, -1, 0; 0, 0, d] =
    !![fx, 0, W / 2 * d; 0, -fy, h / 2 * d; 0, 0, d]
  rw [Matrix.mul_fin_three]
  congr 1
  ring_nf

lemma normalized_idCfg (W h fx fy d : ℝ)
    (hW : W ≠ 0) (hh : h ≠ 0) (hfx : fx ≠ 0) (hfy : fy ≠ 0) :
    (idCfg W h fx fy d).normalized = d • (1 : Mat3) := by
  unfold Homography2.normalized
  rw [H_idCfg]
  have hN : (idCfg W h fx fy d).pixelToUv =
      !![1 / W, 0, 0; 0, -(1 / h), 1; 0, 0, 1] := rfl
  have hA : (idCfg W h fx fy d).A =
      !![d * W / fx, 0, -(d * W / fx) / 2;
         0, d * h / fy, -(d * h / fy) / 2;
         0, 0, 1] := rfl
  rw [hN, hA]
  ext i j
  fin_cases i <;> fin_cases j <;>
    simp [Matrix.mul_apply, Fin.sum_univ_three, Matrix.vecHead, Matrix.vecTail,
      Matrix.smul_apply, Matrix.one_apply] <;>
    field_simp <;> ring

lemma mapPoint_smul_one (d u v : ℝ) (hd : eps ≤ d) :
    mapPoint (d • (1 : Mat3)) u v = ((u, v), true) := by
  have hd0 : (0 : ℝ) < d := lt_of_lt_of_le (by norm_num [eps]) hd
  have e00 : (d • (1 : Mat3)) 0 0 = d := by simp
  have e01 : (d • (1 : Mat3)) 0 1 = 0 := by simp [Matrix.one_apply]
  have e02 : (d • (1 : Mat3)) 0 2 = 0 := by simp [Matrix.one_apply]
  have e10 : (d • (1 : Mat3)) 1 0 = 0 := by simp [Matrix.one_apply]
  have e11 : (d • (1 : Mat3)) 1 1 = d := by simp
  have e12 : (d • (1 : Mat3)) 1 2 = 0 := by simp [Matrix.one_apply]
  have e20 : (d • (1 : Mat3)) 2 0 = 0 := by simp [Matrix.one_apply]
  have e21 : (d • (1 : Mat3)) 2 1 = 0 := by simp [Matrix.one_apply]
  have e22 : (d • (1 : Mat3)) 2 2 = d := by simp
  unfold mapPoint
  simp only [e00, e01, e02, e10, e11, e12, e20, e21, e22, zero_mul, add_zero,
    zero_add, mul_zero]
  rw [if_neg (not_lt.mpr (by rwa [abs_of_pos hd0]))]
  rw [mul_div_cancel_left₀ u hd0.ne', mul_div_cancel_left₀ v hd0.ne']

/-- C3: in the identity configuration — camera at the origin with zero
roll/pitch/yaw, plane perpendicular to the optical axis at distance `d ≥ ε`,
output window exactly matching the field of view at that distance — applying
the normalized matrix with perspective divide maps the UV center `(0.5,0.5)`
to itself and each of the four UV corners to itself, all within `1e-3`
(in fact exactly). -/
theorem c3_frontoparallel_identity (W h fx fy d : ℝ)
    (hW : 0 < W) (hh : 0 < h) (hfx : 0 < fx) (hfy : 0 < fy) (hd : eps ≤ d) :
    ((mapPoint ((idCfg W h fx fy d).normalized) 0.5 0.5).2 = true ∧
      |(mapPoint ((idCfg W h fx fy d).normalized) 0.5 0.5).1.1 - 0.5| ≤ 1 / 1000 ∧
      |(mapPoint ((idCfg W h fx fy d).normalized) 0.5 0.5).1.2 - 0.5| ≤ 1 / 1000) ∧
    ((mapPoint ((idCfg W h fx fy d).normalized) 0 0).2 = true ∧
      |(mapPoint ((idCfg W h fx fy d).normalized) 0 0).1.1 - 0| ≤ 1 / 1000 ∧
      |(mapPoint ((idCfg W h fx fy d).normalized) 0 0).1.2 - 0| ≤ 1 / 1000) ∧
    ((mapPoint ((idCfg W h fx fy d).normalized) 1 0).2 = true ∧
      |(mapPoint ((idCfg W h fx fy d).normalized) 1 0).1.1 - 1| ≤ 1 / 1000 ∧
      |(mapPoint ((idCfg W h fx fy d).normalized) 1 0).1.2 - 0| ≤ 1 / 1000) ∧
    ((mapPoint ((idCfg W h fx fy d).normalized) 1 1).2 = true ∧
      |(mapPoint ((idCfg W h fx fy d).normalized) 1 1).1.1 - 1| ≤ 1 / 1000 ∧
      |(mapPoint ((idCfg W h fx fy d).normalized) 1 1).1.2 - 1| ≤ 1 / 1000) ∧
    ((mapPoint ((idCfg W h fx fy d).normalized) 0 1).2 = true ∧
      |(mapPoint ((idCfg W h fx fy d).normalized) 0 1).1.1 - 0| ≤ 1 / 1000 ∧
      |(mapPoint ((idCfg W h fx fy d).normalized) 0 1).1.2 - 1| ≤ 1 / 1000) := by
  have hM := normalized_idCfg W h fx fy d hW.ne' hh.ne' hfx.ne' hfy.ne'
  have key : ∀ u v : ℝ, mapPoint ((idCfg W h fx fy d).normalized) u v = ((u, v), true) := by
    intro u v
    rw [hM]
    exact mapPoint_smul_one d u v hd
  simp only [key]
  norm_num

/-- Witness for C3 at the concrete fronto-parallel test numbers
(720×720 image, plane at 4000 mm). -/
theorem c3_frontoparallel_identity_witness :
    (mapPoint ((idCfg 720 720 500 500 4000).normalized) 0.5 0.5).2 = true ∧
    |(mapPoint ((idCfg 720 720 500 500 4000).normalized) 0.5 0.5).1.1 - 0.5| ≤ 1 / 1000 ∧
    |(mapPoint ((idCfg 720 720 500 500 4000).normalized) 0.5 0.5).1.2 - 0.5| ≤ 1 / 1000 :=
  (c3_frontoparallel_identity 720 720 500 500 4000 (by norm_num) (by norm_num)
    (by norm_num) (by norm_num) (by norm_num [eps])).1

/-- Witness for C6 at the fronto-parallel test pose (zero roll, pitch and
yaw, which lie inside `[-180°, 180°]`). -/
theorem c6_rotation_orthonormal_witness :
    (idCfg 720 720 500 500 4000).R * ((idCfg 720 720 500 500 4000).R)ᵀ = 1 ∧
    ((idCfg 720 720 500 500 4000).R).det = 1 :=
  c6_rotation_orthonormal (idCfg 720 720 500 500 4000)
    (by norm_num [idCfg]) (by norm_num [idCfg]) (by norm_num [idCfg])
    (by norm_num [idCfg]) (by norm_num [idCfg]) (by norm_num [idCfg])

end Parking
